import Mathlib

/-!
Verification of the CSV-to-JSON contractor transform (`src/f.py`).

The program is embedded shallowly:
* Python strings are Lean `String`s, but every string operation the program
  uses (`strip`, `lower`, `upper`, `split`, `replace`, `startswith`,
  membership, the regexes `[^a-z0-9]+` and `\D`) is re-implemented over the
  character list `String.data`, restricted to ASCII, so that everything
  evaluates inside the kernel.
* Python `float` values are modelled exactly as decimal numbers
  (`PyDec`: an integer mantissa over a power of ten), so `float(v)` is
  decimal parsing and `int(float(v))` is truncation toward zero.  Binary
  rounding of IEEE doubles and the special tokens `inf`/`nan` are outside
  the model.
* `datetime.datetime.now()` is an input: the current calendar year, a stamp
  for each processing step, and the `generated_at` string are parameters.
* The one possible per-row runtime error (the `IndexError` raised by
  `row[header_map.get('name', 0)]` on a short row) is modelled with
  `Except Unit`; everything else in the row pipeline is total.
-/

/-- ASCII lower-casing of one character, modelling Python `str.lower` on the
ASCII fragment. -/
def lowerChar (c : Char) : Char :=
  if 65 ≤ c.toNat ∧ c.toNat ≤ 90 then Char.ofNat (c.toNat + 32) else c

/-- ASCII upper-casing of one character, modelling Python `str.upper` on the
ASCII fragment. -/
def upperChar (c : Char) : Char :=
  if 97 ≤ c.toNat ∧ c.toNat ≤ 122 then Char.ofNat (c.toNat - 32) else c

/-- The ASCII whitespace characters stripped by Python `str.strip()`. -/
def pyIsSpace (c : Char) : Bool :=
  c == ' ' || c == '\t' || c == '\n' || c == '\r' ||
    c == Char.ofNat 11 || c == Char.ofNat 12

/-- ASCII decimal digit test (Python `\d` for the data in scope). -/
def pyIsDigit (c : Char) : Bool := 48 ≤ c.toNat && c.toNat ≤ 57

def quoteChar : Char := Char.ofNat 34

def backslashChar : Char := Char.ofNat 92

def lbraceChar : Char := Char.ofNat 123

def rbraceChar : Char := Char.ofNat 125

def squoteChar : Char := Char.ofNat 39

/-- Python `str.strip()` on a character list. -/
def pyStripWs (cs : List Char) : List Char :=
  ((cs.dropWhile pyIsSpace).reverse.dropWhile pyIsSpace).reverse

/-- Python `str.strip()`. -/
def pyStrip (s : String) : String := String.mk (pyStripWs s.data)

/-- Python `str.lower()` (ASCII fragment). -/
def strLower (s : String) : String := String.mk (s.data.map lowerChar)

/-- Python `str.upper()` (ASCII fragment). -/
def strUpper (s : String) : String := String.mk (s.data.map upperChar)

/-- Python `s.replace(a, b)` for one-character `a` and `b`. -/
def strReplaceChar (a b : Char) (s : String) : String :=
  String.mk (s.data.map (fun c => if c == a then b else c))

/-- Python `s.startswith(c)` for a one-character pattern. -/
def strStartsWithChar (c : Char) (s : String) : Bool :=
  match s.data with
  | d :: _ => d == c
  | [] => false

/-- Python `c in s` for one character. -/
def strContainsChar (c : Char) (s : String) : Bool := s.data.any (fun d => d == c)

/-- Python `str.split(sep)` for a one-character separator: splits at every
occurrence, keeping empty pieces. -/
def splitChar (sep : Char) : List Char → List (List Char)
  | [] => [[]]
  | c :: rest =>
    let r := splitChar sep rest
    if c == sep then [] :: r
    else
      match r with
      | [] => [[c]]
      | g :: gs => (c :: g) :: gs

/-- Python `s.split(sep)` for a one-character separator. -/
def strSplit (sep : Char) (s : String) : List String :=
  (splitChar sep s.data).map String.mk

/-- Python `re.sub(r'\D', '', s)`: keep only the decimal digits. -/
def digitsOnly (s : String) : String := String.mk (s.data.filter pyIsDigit)

/-- An exact decimal number `mant / 10 ^ fracDigits`, the value model for
Python `float` in this program (`src/f.py` only parses, compares and
truncates floats, so exact decimals are enough; IEEE rounding and the
`inf`/`nan` tokens are outside the model). -/
structure PyDec where
  mant : Int
  fracDigits : Nat
deriving DecidableEq, Repr

/-- Ten to the `n` as an integer (via the kernel-accelerated `Nat.pow`). -/
def pow10 (n : Nat) : Int := ((10 : Nat) ^ n : Nat)

/-- Comparison `a <= b` of exact decimals by cross-multiplication. -/
def PyDec.le (a b : PyDec) : Bool :=
  decide (a.mant * pow10 b.fracDigits ≤ b.mant * pow10 a.fracDigits)

/-- Python truthiness of a float: `0.0` is falsy. -/
def PyDec.isZero (a : PyDec) : Bool := a.mant == 0

/-- Python `int(f)`: truncation toward zero. -/
def PyDec.trunc (a : PyDec) : Int := Int.tdiv a.mant (pow10 a.fracDigits)

/-- Value of an ASCII digit string. -/
def digitsToNat (ds : List Char) : Nat :=
  ds.foldl (fun a c => a * 10 + (c.toNat - 48)) 0

/-- Splits a character list into its leading run of digits and the rest. -/
def parseDigits (cs : List Char) : List Char × List Char :=
  (cs.takeWhile pyIsDigit, cs.dropWhile pyIsDigit)

/-- Core of the Python `float(str)` model: an optional sign, an integer
part and/or a fractional part, and an optional decimal exponent. -/
def pyFloatCore (cs : List Char) : Option PyDec :=
  let sgn := match cs with
    | c :: rest =>
      if c == '-' then (true, rest)
      else if c == '+' then (false, rest)
      else (false, cs)
    | [] => (false, ([] : List Char))
  let ipRest := parseDigits sgn.2
  let fpRest := match ipRest.2 with
    | c :: rest => if c == '.' then parseDigits rest else (([] : List Char), ipRest.2)
    | [] => (([] : List Char), ipRest.2)
  if ipRest.1.isEmpty && fpRest.1.isEmpty then none
  else
    let mant : Int :=
      if sgn.1 then -(Int.ofNat (digitsToNat (ipRest.1 ++ fpRest.1)))
      else Int.ofNat (digitsToNat (ipRest.1 ++ fpRest.1))
    match fpRest.2 with
    | [] => some ⟨mant, fpRest.1.length⟩
    | e :: rest =>
      if e == 'e' || e == 'E' then
        let esgn := match rest with
          | c :: r2 =>
            if c == '-' then (true, r2)
            else if c == '+' then (false, r2)
            else (false, rest)
          | [] => (false, rest)
        let edRest := parseDigits esgn.2
        if edRest.1.isEmpty || !edRest.2.isEmpty then none
        else
          let ev := digitsToNat edRest.1
          if esgn.1 then some ⟨mant, fpRest.1.length + ev⟩
          else some ⟨mant * pow10 ev, fpRest.1.length⟩
      else none

/-- Python `float(str)` restricted to finite decimal literals (surrounding
whitespace allowed, as in Python); any other input is a parse failure. -/
def pyFloat (s : String) : Option PyDec := pyFloatCore (pyStripWs s.data)

/-- Model of `clean_string` (`src/f.py` lines 8-12): `None`, the literal token
`"None"` and the empty string give `""`; anything else is stripped. -/
def clean_string (s : Option String) : String :=
  match s with
  | none => ""
  | some v => if v = "None" ∨ v = "" then "" else pyStrip v

/-- Model of `clean_number` (`src/f.py` lines 14-21): `None`, `"None"` and `""` give
`none`; anything else is parsed as a float and truncated to an integer,
with `none` on parse failure. -/
def clean_number (n : Option String) : Option Int :=
  match n with
  | none => none
  | some v => if v = "None" ∨ v = "" then none else (pyFloat v).map PyDec.trunc

/-- Insertion into a Python `dict` rendered as an ordered association list:
an existing key is updated in place, a new key goes to the end. -/
def dictInsert (d : List (String × String)) (k v : String) : List (String × String) :=
  if d.any (fun p => p.1 == k) then
    d.map (fun p => if p.1 == k then (k, v) else p)
  else d ++ [(k, v)]

/-- Python `json`-style whitespace skipping. -/
def jsonSkipWs (cs : List Char) : List Char :=
  cs.dropWhile (fun c => c == ' ' || c == '\t' || c == '\n' || c == '\r')

/-- Parses one double-quoted JSON string without escape sequences. -/
def parseJString : List Char → Option (String × List Char)
  | c :: rest =>
    if c == quoteChar then
      let content := rest.takeWhile (fun d => !(d == quoteChar || d == backslashChar))
      match rest.drop content.length with
      | d :: rest2 => if d == quoteChar then some (String.mk content, rest2) else none
      | [] => none
    else none
  | [] => none

/-- Parses the `"key": "value"` pairs of a flat JSON object, after the
opening brace, up to and including the closing brace. -/
def parseJPairs : Nat → List (String × String) → List Char →
    Option (List (String × String) × List Char)
  | 0, _, _ => none
  | Nat.succ fuel, acc, cs =>
    match parseJString (jsonSkipWs cs) with
    | none => none
    | some kv =>
      match jsonSkipWs kv.2 with
      | c :: cs2 =>
        if c == ':' then
          match parseJString (jsonSkipWs cs2) with
          | none => none
          | some vv =>
            match jsonSkipWs vv.2 with
            | d :: cs4 =>
              if d == ',' then parseJPairs fuel (dictInsert acc kv.1 vv.1) cs4
              else if d == rbraceChar then some (dictInsert acc kv.1 vv.1, cs4)
              else none
            | [] => none
        else none
      | [] => none

/-- Models Python `json.loads` restricted to flat JSON objects whose keys
and values are plain double-quoted strings (the shape the hours cells
take); nested values, numbers and escape sequences count as parse
failures. -/
def jsonLoads (s : String) : Option (List (String × String)) :=
  match jsonSkipWs s.data with
  | c :: rest =>
    if c == lbraceChar then
      match jsonSkipWs rest with
      | d :: rest2 =>
        if d == rbraceChar then
          if (jsonSkipWs rest2).isEmpty then some [] else none
        else
          match parseJPairs (rest.length + 1) [] rest with
          | some objRem =>
            if (jsonSkipWs objRem.2).isEmpty then some objRem.1 else none
          | none => none
      | [] => none
    else none
  | [] => none

/-- Model of `parse_hours` (`src/f.py` lines 23-51): empty or `"None"` input gives
the empty mapping; input starting with a brace has single quotes replaced
by double quotes and is parsed as JSON, falling back to a
`raw_hours` singleton on parse failure; otherwise pipe-delimited input is
split into `day:time` entries; anything else is a `raw_hours` singleton. -/
def parse_hours (hours_string : String) : List (String × String) :=
  if hours_string = "" ∨ hours_string = "None" then []
  else if strStartsWithChar lbraceChar hours_string then
    match jsonLoads (strReplaceChar squoteChar quoteChar hours_string) with
    | some obj => obj
    | none => [("raw_hours", hours_string)]
  else if strContainsChar '|' hours_string then
    (strSplit '|' hours_string).foldl (fun acc day_hour =>
      match strSplit ':' day_hour with
      | [day, time] => dictInsert acc (strLower day) time
      | _ => acc) []
  else [("raw_hours", hours_string)]

/-- Decimal rendering of a natural number (fuel-based so the kernel can
evaluate it). -/
def natDigits : Nat → Nat → List Char
  | 0, _ => []
  | Nat.succ fuel, n =>
    if n < 10 then [Char.ofNat (48 + n)]
    else natDigits fuel (n / 10) ++ [Char.ofNat (48 + n % 10)]

/-- Python `f"{n}"` for a natural number. -/
def natToStr (n : Nat) : String := String.mk (natDigits (n + 1) n)

/-- Python `f"{i}"` for an integer. -/
def intToStr (i : Int) : String :=
  if i < 0 then "-" ++ natToStr i.natAbs else natToStr i.natAbs

/-- The header-to-index dictionary of `src/f.py` line 63; a duplicated
header keeps the last index, as in a Python dict comprehension. -/
def headerMap (headers : List String) : String → Option Nat := fun key =>
  headers.enum.foldl (fun acc p => if p.2 == key then some p.1 else acc) none

/-- Model of `get_value` (`src/f.py` lines 88-92): the cleaned cell under `key`, or
`default` when the key is absent from the header map or its index falls
outside the row. -/
def get_value (hm : String → Option Nat) (row : List String)
    (key default : String) : String :=
  match hm key with
  | none => default
  | some index =>
    if index < row.length then clean_string (some (row.getD index "")) else default

/-- Model of `get_number` (`src/f.py` lines 95-102): the cell under `key` parsed as a
float, or `default` when the cell is empty/absent or fails to parse. -/
def get_number (hm : String → Option Nat) (row : List String)
    (key : String) (default : Option PyDec) : Option PyDec :=
  let val := get_value hm row key ""
  if val = "" then default
  else
    match pyFloat val with
    | some f => some f
    | none => default

/-- Model of `get_boolean` (`src/f.py` lines 105-107): true exactly when the
non-empty cleaned cell upper-cases to `"TRUE"`, otherwise `default`. -/
def get_boolean (hm : String → Option Nat) (row : List String)
    (key : String) (default : Bool) : Bool :=
  let val := get_value hm row key ""
  if val = "" then default else strUpper val == "TRUE"

/-- Slug characters: `[a-z0-9]` (`src/f.py` line 113). -/
def isSlugChar (c : Char) : Bool :=
  (97 ≤ c.toNat && c.toNat ≤ 122) || (48 ≤ c.toNat && c.toNat ≤ 57)

/-- Model of the regex substitution on line 113: each maximal run of non-slug
characters becomes one hyphen. -/
def slugCollapse : Bool → List Char → List Char
  | _, [] => []
  | inRun, c :: cs =>
    if isSlugChar c then c :: slugCollapse false cs
    else if inRun then slugCollapse true cs
    else '-' :: slugCollapse true cs

/-- The slug of a name (`src/f.py` line 113): lower-case, collapse non-slug
runs to hyphens, strip hyphens at both ends. -/
def slugOf (name : String) : String :=
  let collapsed := slugCollapse false (strLower name).data
  String.mk (((collapsed.dropWhile (fun c => c == '-')).reverse.dropWhile
    (fun c => c == '-')).reverse)

/-- One additional-phone entry (`src/f.py` lines 169-173). -/
structure PhoneEntry where
  number : String
  type : String
  carrier : String
deriving DecidableEq, Repr

/-- One step of the phone-deduplication loop (`src/f.py` lines 161-173):
the accumulator is the additional-phones list so far together with the
seen-set of digits-only numbers. -/
def phoneStep (hm : String → Option Nat) (row : List String)
    (acc : List PhoneEntry × List String) (phone_field : String) :
    List PhoneEntry × List String :=
  if get_value hm row phone_field "" ≠ "" then
    if digitsOnly (get_value hm row phone_field "") ≠ "" ∧
        digitsOnly (get_value hm row phone_field "") ∉ acc.2 then
      (acc.1 ++ [{ number := get_value hm row phone_field "",
                   type := get_value hm row (phone_field ++ ".phones_enricher.carrier_type") "",
                   carrier := get_value hm row (phone_field ++ ".phones_enricher.carrier_name") "" }],
       digitsOnly (get_value hm row phone_field "") :: acc.2)
    else acc
  else acc

/-- The phone-deduplication loop over the additional phone columns. -/
def phoneFold (hm : String → Option Nat) (row : List String)
    (fields : List String) (acc : List PhoneEntry × List String) :
    List PhoneEntry × List String :=
  fields.foldl (phoneStep hm row) acc

/-- The person attached to an email column (`src/f.py` lines 186-191). -/
structure ContactPerson where
  full_name : String
  first_name : String
  last_name : String
  title : String
deriving DecidableEq, Repr

/-- One additional-email entry (`src/f.py` lines 182-192). -/
structure EmailEntry where
  address : String
  status : String
  validation_details : String
  contact : ContactPerson
deriving DecidableEq, Repr

structure Location where
  city : String
  state : String
  zip : String
  full_address : String
  latitude : Option PyDec
  longitude : Option PyDec
deriving DecidableEq, Repr

structure BasicInfo where
  name : String
  query : String
  location : Location
deriving DecidableEq, Repr

structure PrimaryPhone where
  primary : String
  type : String
  carrier : String
  additional_phones : List PhoneEntry
deriving DecidableEq, Repr

structure PrimaryEmail where
  address : String
  status : String
  validation_details : String
  contact : ContactPerson
deriving DecidableEq, Repr

structure ContactInfo where
  phone : PrimaryPhone
  email : PrimaryEmail
  additional_emails : List EmailEntry
deriving DecidableEq, Repr

structure WebsiteDetails where
  has_website : Bool
  title : String
  description : String
  generator : String
  has_fb_pixel : Bool
  has_google_tag : Bool
deriving DecidableEq, Repr

structure SocialMedia where
  facebook : String
  instagram : String
  linkedin : String
  twitter : String
  youtube : String
deriving DecidableEq, Repr

structure WebPresence where
  website : String
  website_details : WebsiteDetails
  social_media : SocialMedia
deriving DecidableEq, Repr

structure BusinessDetails where
  year_founded : Option Int
  years_in_business : Option Int
  employee_count : Option Int
  business_type : String
  description : String
  services : List String
  hours : List (String × String)
deriving DecidableEq, Repr

structure OnlinePresence where
  google_rating : Option PyDec
  google_reviews_count : Option Int
  google_reviews_link : String
  google_place_id : String
  business_status : String
  photos_count : Option Int
  photo_url : String
  verified : Bool
deriving DecidableEq, Repr

structure Segmentation where
  has_valid_email : Bool
  has_mobile_phone : Bool
  has_website : Bool
  has_facebook : Bool
  has_reviews : Bool
  high_rating : Bool
  established_business : Bool
  is_verified : Bool
deriving DecidableEq, Repr

structure Contractor where
  id : String
  slug : String
  basic_info : BasicInfo
  contact_info : ContactInfo
  web_presence : WebPresence
  business_details : BusinessDetails
  online_presence : OnlinePresence
  segmentation : Segmentation
deriving DecidableEq, Repr

/-- The six aggregate segment counts (`src/f.py` lines 301-308). -/
structure Segments where
  with_website : Nat
  with_valid_email : Nat
  with_mobile_phone : Nat
  high_rated : Nat
  established : Nat
  verified : Nat
deriving DecidableEq, Repr

/-- The `meta` object (`src/f.py` lines 313-318). -/
structure Meta where
  total_count : Nat
  generated_at : String
  segments : Segments
  processed_rows : List Int
deriving DecidableEq, Repr

/-- The output document (`src/f.py` lines 311-319). -/
structure Output where
  hvac_contractors : List Contractor
  meta : Meta
deriving DecidableEq, Repr

/-- Model of `years_in_business` (`src/f.py` lines 194-197): Python's `if
year_founded:` treats both `None` and `0` as falsy. -/
def yearsInBusiness (current_year : Int) (year_founded : Option Int) : Option Int :=
  match year_founded with
  | none => none
  | some y => if y = 0 then none else some (current_year - y)

/-- The record built for one selected row (`src/f.py` lines 109-295).
`current_year` is `datetime.datetime.now().year`, and `stamp` is the
timestamp drawn for the fallback id on line 214. -/
def buildContractor (current_year : Int) (hm : String → Option Nat)
    (row : List String) (row_index : Int) (stamp : Nat) : Contractor :=
  let name := get_value hm row "name" ""
  let query := get_value hm row "query" ""
  let place_id := get_value hm row "place_id" ""
  let slug := slugOf name
  let phone := get_value hm row "phone" ""
  let phone_type := get_value hm row "phone.phones_enricher.carrier_type" ""
  let phone_carrier := get_value hm row "phone.phones_enricher.carrier_name" ""
  let city := get_value hm row "city" ""
  let state := get_value hm row "state" (get_value hm row "us_state" "")
  let zip_code := get_value hm row "postal_code" ""
  let full_address := get_value hm row "full_address" ""
  let latitude := get_number hm row "latitude" none
  let longitude := get_number hm row "longitude" none
  let email1 := get_value hm row "email_1" ""
  let email1_status := get_value hm row "email_1.emails_validator.status" ""
  let email1_details := get_value hm row "email_1.emails_validator.status_details" ""
  let year_founded := clean_number (some (get_value hm row "site.company_insights.founded_year"
    (get_value hm row "company_year_started" "")))
  let employee_count := clean_number (some (get_value hm row "site.company_insights.employees"
    (get_value hm row "number_of_employees" "")))
  let description := get_value hm row "description" (get_value hm row "site.company_insights.description" "")
  let verified := get_boolean hm row "verified" false
  let subtypes := get_value hm row "subtypes" ""
  let services :=
    if subtypes ≠ "" then ((strSplit ',' subtypes).map pyStrip).filter (fun s => s ≠ "")
    else []
  let hours_obj := parse_hours (get_value hm row "working_hours" "")
  let additional_phones := (phoneFold hm row ["phone_1", "phone_2", "phone_3"]
      ([], if phone ≠ "" then [digitsOnly phone] else [])).1
  let additional_emails := ["email_2", "email_3"].foldl (fun acc email_field =>
      let email := get_value hm row email_field ""
      if email ≠ "" then
        acc ++ [{ address := email,
                  status := get_value hm row (email_field ++ ".emails_validator.status") "",
                  validation_details := get_value hm row (email_field ++ ".emails_validator.status_details") "",
                  contact := { full_name := get_value hm row (email_field ++ "_full_name") "",
                               first_name := get_value hm row (email_field ++ "_first_name") "",
                               last_name := get_value hm row (email_field ++ "_last_name") "",
                               title := get_value hm row (email_field ++ "_title") "" } }]
      else acc) ([] : List EmailEntry)
  let years_in_business : Option Int := yearsInBusiness current_year year_founded
  let has_valid_email := email1_status == "RECEIVING"
  let has_mobile_phone := (strLower phone_type == "mobile") ||
      additional_phones.any (fun p => (p.type != "") && (strLower p.type == "mobile"))
  let website := get_value hm row "site" ""
  let facebook := get_value hm row "facebook" ""
  let rating := get_number hm row "rating" none
  let reviews_count := clean_number (some (get_value hm row "reviews" ""))
  let photos_count : Option Int :=
    match hm "photos_count" with
    | some index =>
      if index < row.length then clean_number (some (clean_string (some (row.getD index ""))))
      else some 0
    | none => some 0
  { id := if place_id ≠ "" then place_id
          else "id-" ++ intToStr row_index ++ "-" ++ natToStr stamp,
    slug := slug,
    basic_info := {
      name := name,
      query := query,
      location := { city := city, state := state, zip := zip_code,
                    full_address := full_address, latitude := latitude,
                    longitude := longitude } },
    contact_info := {
      phone := { primary := phone, type := phone_type, carrier := phone_carrier,
                 additional_phones := additional_phones },
      email := { address := email1, status := email1_status,
                 validation_details := email1_details,
                 contact := { full_name := get_value hm row "email_1_full_name" "",
                              first_name := get_value hm row "email_1_first_name" "",
                              last_name := get_value hm row "email_1_last_name" "",
                              title := get_value hm row "email_1_title" "" } },
      additional_emails := additional_emails },
    web_presence := {
      website := website,
      website_details := { has_website := website != "",
                           title := get_value hm row "website_title" "",
                           description := get_value hm row "website_description" "",
                           generator := get_value hm row "website_generator" "",
                           has_fb_pixel := get_boolean hm row "website_has_fb_pixel" false,
                           has_google_tag := get_boolean hm row "website_has_google_tag" false },
      social_media := { facebook := facebook,
                        instagram := get_value hm row "instagram" "",
                        linkedin := get_value hm row "linkedin" "",
                        twitter := get_value hm row "twitter" "",
                        youtube := get_value hm row "youtube" "" } },
    business_details := {
      year_founded := year_founded,
      years_in_business := years_in_business,
      employee_count := employee_count,
      business_type := get_value hm row "business_type" "",
      description := description,
      services := services,
      hours := hours_obj },
    online_presence := {
      google_rating := rating,
      google_reviews_count := reviews_count,
      google_reviews_link := get_value hm row "reviews_link" "",
      google_place_id := place_id,
      business_status := get_value hm row "business_status" "",
      photos_count := photos_count,
      photo_url := get_value hm row "photo" "",
      verified := verified },
    segmentation := {
      has_valid_email := has_valid_email,
      has_mobile_phone := has_mobile_phone,
      has_website := website != "",
      has_facebook := facebook != "",
      has_reviews := (match reviews_count with
        | none => false
        | some n => if n = 0 then false else decide (0 < n)),
      high_rating := (match rating with
        | none => false
        | some r => if r.isZero then false else PyDec.le ⟨45, 1⟩ r),
      established_business := (match years_in_business with
        | none => false
        | some y => if y = 0 then false else decide (5 < y)),
      is_verified := verified } }

/-- Selection and guarding of one requested row (`src/f.py` lines 72-85):
out-of-range indices and empty or name-less rows are skipped (`.ok none`);
a non-empty row whose name column index falls outside the row raises
`IndexError` on line 83 (`.error ()`); otherwise the record is built. -/
def processRow (current_year : Int) (hm : String → Option Nat)
    (all_rows : List (List String)) (row_index : Int) (stamp : Nat) :
    Except Unit (Option Contractor) :=
  if row_index - 1 < 0 ∨ (all_rows.length : Int) ≤ row_index - 1 then .ok none
  else
    if all_rows.getD (row_index - 1).toNat [] = [] then .ok none
    else
      if (hm "name").getD 0 < (all_rows.getD (row_index - 1).toNat []).length then
        if (all_rows.getD (row_index - 1).toNat []).getD ((hm "name").getD 0) "" = "" then .ok none
        else .ok (some (buildContractor current_year hm
          (all_rows.getD (row_index - 1).toNat []) row_index stamp))
      else .error ()

/-- The loop over `specific_rows` (`src/f.py` lines 72-298), accumulating
the `hvac_contractors` list; `clock` supplies the per-step timestamp and
`k` is the current step index. -/
def processRows (current_year : Int) (hm : String → Option Nat)
    (all_rows : List (List String)) (clock : Nat → Nat) :
    List Int → Nat → Except Unit (List Contractor)
  | [], _ => .ok []
  | r :: rs, k =>
    match processRow current_year hm all_rows r (clock k) with
    | .error e => .error e
    | .ok none => processRows current_year hm all_rows clock rs (k + 1)
    | .ok (some c) => (processRows current_year hm all_rows clock rs (k + 1)).map (fun cs => c :: cs)

/-- The segment statistics (`src/f.py` lines 301-308): each count filters
the completed record list by one segmentation flag. -/
def mkSegments (cs : List Contractor) : Segments :=
  { with_website := (cs.filter (fun c => c.segmentation.has_website)).length,
    with_valid_email := (cs.filter (fun c => c.segmentation.has_valid_email)).length,
    with_mobile_phone := (cs.filter (fun c => c.segmentation.has_mobile_phone)).length,
    high_rated := (cs.filter (fun c => c.segmentation.high_rating)).length,
    established := (cs.filter (fun c => c.segmentation.established_business)).length,
    verified := (cs.filter (fun c => c.segmentation.is_verified)).length }

/-- The final document (`src/f.py` lines 311-319). -/
def mkOutput (cs : List Contractor) (specific_rows : List Int)
    (generated_at : String) : Output :=
  { hvac_contractors := cs,
    meta := { total_count := cs.length,
              generated_at := generated_at,
              segments := mkSegments cs,
              processed_rows := specific_rows } }

/-- Model of `convert_to_json` (`src/f.py` lines 53-326) as a function of the parsed
table and the time inputs; `none` models the run dying on an uncaught
per-row exception before any output is written. -/
def convert_to_json (headers : List String) (all_rows : List (List String))
    (specific_rows : List Int) (current_year : Int) (clock : Nat → Nat)
    (generated_at : String) : Option Output :=
  match processRows current_year (headerMap headers) all_rows clock specific_rows 0 with
  | .error _ => none
  | .ok cs => some (mkOutput cs specific_rows generated_at)

/-- Erases the fields the spec's idempotence property excludes: the
timestamp-based fallback id (present exactly when the record has no
external place id) and `meta.generated_at`. -/
def maskContractor (c : Contractor) : Contractor :=
  if c.online_presence.google_place_id = "" then { c with id := "" } else c

/-- Erases `generated_at` and all fallback ids from an output document. -/
def maskOutput (o : Output) : Output :=
  { hvac_contractors := o.hvac_contractors.map maskContractor,
    meta := { o.meta with generated_at := "" } }

/-- Whether an `Except` result is a success. -/
def exceptOk {ε α : Type} : Except ε α → Bool
  | .ok _ => true
  | .error _ => false

/-- A requested row number that the row loop survives: out of range, or an
empty selected row, or a selected row long enough for the name lookup. -/
def rowSafe (hm : String → Option Nat) (all_rows : List (List String)) (r : Int) : Bool :=
  decide (r - 1 < 0) || decide ((all_rows.length : Int) ≤ r - 1) ||
    (all_rows.getD (r - 1).toNat [] == []) ||
    decide ((hm "name").getD 0 < (all_rows.getD (r - 1).toNat []).length)

/-- A requested row number that yields a record: in range, with the name
column inside the row and its raw cell non-empty. -/
def rowQualifies (hm : String → Option Nat) (all_rows : List (List String)) (r : Int) : Bool :=
  decide (0 ≤ r - 1) && decide (r - 1 < (all_rows.length : Int)) &&
    (decide ((hm "name").getD 0 < (all_rows.getD (r - 1).toNat []).length) &&
     ((all_rows.getD (r - 1).toNat []).getD ((hm "name").getD 0) "" != ""))

lemma convert_segments {headers : List String} {all_rows : List (List String)}
    {specific_rows : List Int} {current_year : Int} {clock : Nat → Nat}
    {generated_at : String} {o : Output}
    (h : convert_to_json headers all_rows specific_rows current_year clock generated_at = some o) :
    o.meta.segments = mkSegments o.hvac_contractors := by
  unfold convert_to_json at h
  cases hp : processRows current_year (headerMap headers) all_rows clock specific_rows 0 with
  | error e => rw [hp] at h; cases h
  | ok cs => rw [hp] at h; injection h with h'; rw [← h']; rfl

/-- C1: in every run, each of the six integer counts in `meta.segments`
equals the number of records in the final `hvac_contractors` list whose
corresponding segmentation flag is true, including for the empty list. -/
theorem C1_segment_counts (cs : List Contractor) (specific_rows : List Int)
    (generated_at : String) (headers : List String) (all_rows : List (List String))
    (current_year : Int) (clock : Nat → Nat) :
    ((mkOutput cs specific_rows generated_at).meta.segments.with_website =
       ((mkOutput cs specific_rows generated_at).hvac_contractors.filter
         (fun c => c.segmentation.has_website)).length ∧
     (mkOutput cs specific_rows generated_at).meta.segments.with_valid_email =
       ((mkOutput cs specific_rows generated_at).hvac_contractors.filter
         (fun c => c.segmentation.has_valid_email)).length ∧
     (mkOutput cs specific_rows generated_at).meta.segments.with_mobile_phone =
       ((mkOutput cs specific_rows generated_at).hvac_contractors.filter
         (fun c => c.segmentation.has_mobile_phone)).length ∧
     (mkOutput cs specific_rows generated_at).meta.segments.high_rated =
       ((mkOutput cs specific_rows generated_at).hvac_contractors.filter
         (fun c => c.segmentation.high_rating)).length ∧
     (mkOutput cs specific_rows generated_at).meta.segments.established =
       ((mkOutput cs specific_rows generated_at).hvac_contractors.filter
         (fun c => c.segmentation.established_business)).length ∧
     (mkOutput cs specific_rows generated_at).meta.segments.verified =
       ((mkOutput cs specific_rows generated_at).hvac_contractors.filter
         (fun c => c.segmentation.is_verified)).length) ∧
    (convert_to_json headers all_rows specific_rows current_year clock generated_at).elim
      True (fun o =>
        o.meta.segments.with_website =
          (o.hvac_contractors.filter (fun c => c.segmentation.has_website)).length ∧
        o.meta.segments.with_valid_email =
          (o.hvac_contractors.filter (fun c => c.segmentation.has_valid_email)).length ∧
        o.meta.segments.with_mobile_phone =
          (o.hvac_contractors.filter (fun c => c.segmentation.has_mobile_phone)).length ∧
        o.meta.segments.high_rated =
          (o.hvac_contractors.filter (fun c => c.segmentation.high_rating)).length ∧
        o.meta.segments.established =
          (o.hvac_contractors.filter (fun c => c.segmentation.established_business)).length ∧
        o.meta.segments.verified =
          (o.hvac_contractors.filter (fun c => c.segmentation.is_verified)).length) := by
  constructor
  · exact ⟨rfl, rfl, rfl, rfl, rfl, rfl⟩
  · cases h : convert_to_json headers all_rows specific_rows current_year clock generated_at with
    | none => exact trivial
    | some o =>
      show _ ∧ _
      rw [convert_segments h]
      exact ⟨rfl, rfl, rfl, rfl, rfl, rfl⟩

/-- C10: in every produced record, `web_presence.website_details.has_website`
equals `segmentation.has_website`, and both hold exactly when the cleaned
`site` column value is non-empty. -/
theorem C10_has_website_consistent (current_year : Int) (hm : String → Option Nat)
    (row : List String) (row_index : Int) (stamp : Nat) :
    (buildContractor current_year hm row row_index stamp).web_presence.website_details.has_website =
      (buildContractor current_year hm row row_index stamp).segmentation.has_website ∧
    (buildContractor current_year hm row row_index stamp).segmentation.has_website =
      (get_value hm row "site" "" != "") :=
  ⟨rfl, rfl⟩

/-- C8: `clean_number` returns `none` for null input, the empty string and
the `"None"` token; any other string is parsed as a (finite decimal) float
and truncated toward zero, with `none` on parse failure; in particular the
four documented examples hold. -/
theorem C8_clean_number :
    clean_number none = none ∧
    clean_number (some "None") = none ∧
    clean_number (some "") = none ∧
    clean_number (some "42.9") = some 42 ∧
    clean_number (some "abc") = none ∧
    (∀ s : String, s ≠ "None" → s ≠ "" →
      clean_number (some s) = (pyFloat s).map PyDec.trunc) := by
  refine ⟨rfl, by decide, by decide, by decide, by decide, ?_⟩
  intro s h1 h2
  simp [clean_number, h1, h2]

theorem C8_witness : clean_number (some "7.5") = (pyFloat "7.5").map PyDec.trunc :=
  C8_clean_number.2.2.2.2.2 "7.5" (by decide) (by decide)

/-- C4 counterexample: the input `"None"` does not start with a brace and
contains no pipe, so under the claimed policy it would yield the
`raw_hours` singleton, but `parse_hours` returns the empty mapping. -/
theorem C4_counterexample :
    parse_hours "None" = [] ∧ parse_hours "None" ≠ [("raw_hours", "None")] :=
  ⟨rfl, by decide⟩

/-- C4 (amended): `parse_hours` follows the ordered first-match policy with
the empty string AND the `"None"` token both yielding the empty mapping;
brace-initial input is JSON-parsed after quote replacement with the
`raw_hours` fallback on parse failure (never the pipe branch); otherwise
pipe-carrying input is split into `day:time` entries (non-2-part entries
dropped, day keys lower-cased); any other input yields the `raw_hours`
singleton; and the four documented examples hold. -/
theorem C4_parse_hours_policy (s : String) :
    ((s = "" ∨ s = "None") → parse_hours s = []) ∧
    (s ≠ "" → s ≠ "None" → strStartsWithChar lbraceChar s = true →
      parse_hours s =
        (match jsonLoads (strReplaceChar squoteChar quoteChar s) with
         | some obj => obj
         | none => [("raw_hours", s)])) ∧
    (s ≠ "" → s ≠ "None" → strStartsWithChar lbraceChar s = false →
      strContainsChar '|' s = true →
      parse_hours s = (strSplit '|' s).foldl (fun acc day_hour =>
        match strSplit ':' day_hour with
        | [day, time] => dictInsert acc (strLower day) time
        | _ => acc) []) ∧
    (s ≠ "" → s ≠ "None" → strStartsWithChar lbraceChar s = false →
      strContainsChar '|' s = false →
      parse_hours s = [("raw_hours", s)]) ∧
    parse_hours "mon:9-5|tue:9-5" = [("mon", "9-5"), ("tue", "9-5")] ∧
    parse_hours "\x7b\x27mon\x27: \x279-5\x27\x7d" = [("mon", "9-5")] ∧
    parse_hours "closed sundays" = [("raw_hours", "closed sundays")] ∧
    parse_hours "" = [] := by
  refine ⟨?_, ?_, ?_, ?_, by decide, by decide, by decide, rfl⟩
  · intro h
    unfold parse_hours
    rw [if_pos h]
  · intro h1 h2 h3
    simp [parse_hours, h1, h2, h3]
  · intro h1 h2 h3 h4
    simp [parse_hours, h1, h2, h3, h4]
  · intro h1 h2 h3 h4
    simp [parse_hours, h1, h2, h3, h4]

theorem C4_witness : parse_hours "sat:closed" = [("raw_hours", "sat:closed")] :=
  (C4_parse_hours_policy "sat:closed").2.2.2.1 (by decide) (by decide) (by decide) (by decide)

lemma get_value_eq_default (hm : String → Option Nat) (row : List String)
    (key d : String) (h : (hm key).elim True (fun i => row.length ≤ i)) :
    get_value hm row key d = d := by
  unfold get_value
  cases hk : hm key with
  | none => rfl
  | some i =>
    rw [hk] at h
    simp only [Option.elim] at h
    show (if i < row.length then clean_string (some (row.getD i "")) else d) = d
    rw [if_neg (by omega)]

/-- C6 counterexample: with the `state` column present in the header and its
cell holding the `"None"` token, the record's state is the cleaned cell
`""`, not the alternate `us_state` value `"TX"`. -/
theorem C6_counterexample :
    (buildContractor 2025 (headerMap ["name", "state", "us_state"])
      ["A", "None", "TX"] 1 0).basic_info.location.state = "" ∧
    get_value (headerMap ["name", "state", "us_state"]) ["A", "None", "TX"] "us_state" "" = "TX" ∧
    (buildContractor 2025 (headerMap ["name", "state", "us_state"])
      ["A", "None", "TX"] 1 0).basic_info.location.state ≠
      get_value (headerMap ["name", "state", "us_state"]) ["A", "None", "TX"] "us_state" "" :=
  ⟨by decide, by decide, by decide⟩

/-- C6 (amended): the fallback chains fire exactly when the primary column
is absent from the header map or its index falls outside the row: then
state comes from `us_state`, year-founded from `company_year_started`, and
description from the site-derived description column. -/
theorem C6_field_fallbacks (current_year : Int) (hm : String → Option Nat)
    (row : List String) (row_index : Int) (stamp : Nat) :
    ((hm "state").elim True (fun i => row.length ≤ i) →
      (buildContractor current_year hm row row_index stamp).basic_info.location.state =
        get_value hm row "us_state" "") ∧
    ((hm "site.company_insights.founded_year").elim True (fun i => row.length ≤ i) →
      (buildContractor current_year hm row row_index stamp).business_details.year_founded =
        clean_number (some (get_value hm row "company_year_started" ""))) ∧
    ((hm "description").elim True (fun i => row.length ≤ i) →
      (buildContractor current_year hm row row_index stamp).business_details.description =
        get_value hm row "site.company_insights.description" "") := by
  refine ⟨fun h => ?_, fun h => ?_, fun h => ?_⟩
  · show get_value hm row "state" (get_value hm row "us_state" "") = get_value hm row "us_state" ""
    exact get_value_eq_default _ _ _ _ h
  · show clean_number (some (get_value hm row "site.company_insights.founded_year"
        (get_value hm row "company_year_started" ""))) =
      clean_number (some (get_value hm row "company_year_started" ""))
    rw [get_value_eq_default _ _ _ _ h]
  · show get_value hm row "description" (get_value hm row "site.company_insights.description" "") =
      get_value hm row "site.company_insights.description" ""
    exact get_value_eq_default _ _ _ _ h

theorem C6_witness :
    (buildContractor 2025 (headerMap ["name", "us_state"]) ["A", "TX"] 1 0).basic_info.location.state =
      get_value (headerMap ["name", "us_state"]) ["A", "TX"] "us_state" "" ∧
    (buildContractor 2025 (headerMap ["name", "us_state"]) ["A", "TX"] 1 0).business_details.year_founded =
      clean_number (some (get_value (headerMap ["name", "us_state"]) ["A", "TX"] "company_year_started" "")) ∧
    (buildContractor 2025 (headerMap ["name", "us_state"]) ["A", "TX"] 1 0).business_details.description =
      get_value (headerMap ["name", "us_state"]) ["A", "TX"] "site.company_insights.description" "" :=
  ⟨(C6_field_fallbacks 2025 (headerMap ["name", "us_state"]) ["A", "TX"] 1 0).1 True.intro,
   (C6_field_fallbacks 2025 (headerMap ["name", "us_state"]) ["A", "TX"] 1 0).2.1 True.intro,
   (C6_field_fallbacks 2025 (headerMap ["name", "us_state"]) ["A", "TX"] 1 0).2.2 True.intro⟩

/-- C7 counterexample: with the founded-year cell `"0"`, `year_founded` is
present (`some 0`) but `years_in_business` is `none`, not
`current_year - 0`, because Python's `if year_founded:` treats `0` as
falsy. -/
theorem C7_counterexample :
    (buildContractor 2025 (headerMap ["name", "site.company_insights.founded_year"])
      ["A", "0"] 1 0).business_details.year_founded = some 0 ∧
    (buildContractor 2025 (headerMap ["name", "site.company_insights.founded_year"])
      ["A", "0"] 1 0).business_details.years_in_business = none ∧
    (buildContractor 2025 (headerMap ["name", "site.company_insights.founded_year"])
      ["A", "0"] 1 0).business_details.years_in_business ≠ some (2025 - 0) :=
  ⟨by decide, by decide, by decide⟩

/-- C7 (amended): `years_in_business` equals the current year minus
`year_founded` whenever `year_founded` is present and non-zero, and is
`none` exactly when `year_founded` is absent or zero. -/
theorem C7_years_in_business (current_year : Int) (hm : String → Option Nat)
    (row : List String) (row_index : Int) (stamp : Nat) :
    (∀ y : Int,
      (buildContractor current_year hm row row_index stamp).business_details.year_founded = some y →
      y ≠ 0 →
      (buildContractor current_year hm row row_index stamp).business_details.years_in_business =
        some (current_year - y)) ∧
    ((buildContractor current_year hm row row_index stamp).business_details.years_in_business = none ↔
      ((buildContractor current_year hm row row_index stamp).business_details.year_founded = none ∨
       (buildContractor current_year hm row row_index stamp).business_details.year_founded = some 0)) := by
  have hyb : (buildContractor current_year hm row row_index stamp).business_details.years_in_business =
      yearsInBusiness current_year
        ((buildContractor current_year hm row row_index stamp).business_details.year_founded) := rfl
  rw [hyb]
  generalize (buildContractor current_year hm row row_index stamp).business_details.year_founded = yf
  constructor
  · intro y hy hy0
    rw [hy]
    simp [yearsInBusiness, hy0]
  · cases yf with
    | none => simp [yearsInBusiness]
    | some y =>
      by_cases hy : y = 0 <;> simp [yearsInBusiness, hy]

theorem C7_witness :
    (buildContractor 2025 (headerMap ["name", "site.company_insights.founded_year"])
      ["A", "2000"] 1 0).business_details.years_in_business = some (2025 - 2000) :=
  (C7_years_in_business 2025 (headerMap ["name", "site.company_insights.founded_year"])
    ["A", "2000"] 1 0).1 2000 (by decide) (by decide)

lemma phoneStep_cases (hm : String → Option Nat) (row : List String)
    (acc : List PhoneEntry × List String) (f : String) :
    phoneStep hm row acc f = acc ∨
    ∃ e : PhoneEntry, phoneStep hm row acc f = (acc.1 ++ [e], digitsOnly e.number :: acc.2) ∧
      digitsOnly e.number ∉ acc.2 ∧ digitsOnly e.number ≠ "" := by
  unfold phoneStep
  split_ifs with h1 h2
  · right
    exact ⟨{ number := get_value hm row f "",
             type := get_value hm row (f ++ ".phones_enricher.carrier_type") "",
             carrier := get_value hm row (f ++ ".phones_enricher.carrier_name") "" },
           rfl, h2.2, h2.1⟩
  · left; rfl
  · left; rfl

lemma phoneFold_inv (hm : String → Option Nat) (row : List String) :
    ∀ (fields : List String) (acc : List PhoneEntry × List String),
    ((acc.1.map (fun p => digitsOnly p.number)).Nodup ∧
      ∀ p ∈ acc.1, digitsOnly p.number ∈ acc.2) →
    ((phoneFold hm row fields acc).1.map (fun p => digitsOnly p.number)).Nodup ∧
    (∀ p ∈ (phoneFold hm row fields acc).1,
      digitsOnly p.number ∈ (phoneFold hm row fields acc).2) ∧
    (∀ d, d ∈ acc.2 → d ∈ (phoneFold hm row fields acc).2) ∧
    (∀ p ∈ (phoneFold hm row fields acc).1, p ∈ acc.1 ∨ digitsOnly p.number ∉ acc.2) := by
  intro fields
  induction fields with
  | nil =>
    intro acc h
    exact ⟨h.1, h.2, fun d hd => hd, fun p hp => Or.inl hp⟩
  | cons f fs ih =>
    intro acc h
    have hfold : phoneFold hm row (f :: fs) acc = phoneFold hm row fs (phoneStep hm row acc f) := rfl
    rw [hfold]
    rcases phoneStep_cases hm row acc f with heq | ⟨e, heq, hnot, _⟩
    · rw [heq]
      exact ih acc h
    · rw [heq]
      have hinv' : (((acc.1 ++ [e], digitsOnly e.number :: acc.2).1.map
            (fun p => digitsOnly p.number)).Nodup ∧
          ∀ p ∈ (acc.1 ++ [e], digitsOnly e.number :: acc.2).1,
            digitsOnly p.number ∈ (acc.1 ++ [e], digitsOnly e.number :: acc.2).2) := by
        constructor
        · show ((acc.1 ++ [e]).map (fun p => digitsOnly p.number)).Nodup
          rw [List.map_append]
          refine List.Nodup.append h.1 (List.nodup_singleton _) ?_
          intro a ha hb
          rw [List.map_singleton, List.mem_singleton] at hb
          subst hb
          rcases List.mem_map.mp ha with ⟨p, hp, hpe⟩
          exact hnot (hpe ▸ h.2 p hp)
        · intro p hp
          rcases List.mem_append.mp hp with hp' | hp'
          · exact List.mem_cons_of_mem _ (h.2 p hp')
          · rw [List.mem_singleton] at hp'
            subst hp'
            exact List.mem_cons_self _ _
      obtain ⟨n1, n2, n3, n4⟩ := ih _ hinv'
      refine ⟨n1, n2, fun d hd => n3 d (List.mem_cons_of_mem _ hd), fun p hp => ?_⟩
      rcases n4 p hp with hp' | hp'
      · rcases List.mem_append.mp hp' with h' | h'
        · exact Or.inl h'
        · rw [List.mem_singleton] at h'
          subst h'
          exact Or.inr hnot
      · exact Or.inr (fun hc => hp' (List.mem_cons_of_mem _ hc))

/-- C2: in every produced record the digits-only forms of the
additional-phones entries are pairwise distinct, none of them equals the
digits-only primary phone when the primary phone is non-empty, and in the
documented concrete case (primary `"(555) 123-4567"`, `phone_1`
`"555-123-4567"`) the additional-phones list is empty. -/
theorem C2_phone_dedup (current_year : Int) (hm : String → Option Nat)
    (row : List String) (row_index : Int) (stamp : Nat) :
    (((buildContractor current_year hm row row_index stamp).contact_info.phone.additional_phones.map
        (fun p => digitsOnly p.number)).Nodup ∧
      (get_value hm row "phone" "" ≠ "" →
        ((buildContractor current_year hm row row_index stamp).contact_info.phone.additional_phones.all
          (fun p => digitsOnly p.number != digitsOnly (get_value hm row "phone" ""))) = true)) ∧
    (buildContractor 2025 (headerMap ["name", "phone", "phone_1"])
      ["A", "(555) 123-4567", "555-123-4567"] 1 0).contact_info.phone.additional_phones = [] := by
  refine ⟨?_, by decide⟩
  have haps : (buildContractor current_year hm row row_index stamp).contact_info.phone.additional_phones =
      (phoneFold hm row ["phone_1", "phone_2", "phone_3"]
        ([], if get_value hm row "phone" "" ≠ ""
             then [digitsOnly (get_value hm row "phone" "")] else [])).1 := rfl
  rw [haps]
  have hinv := phoneFold_inv hm row ["phone_1", "phone_2", "phone_3"]
    ([], if get_value hm row "phone" "" ≠ ""
         then [digitsOnly (get_value hm row "phone" "")] else [])
    ⟨by simp, by intro p hp; exact absurd hp (List.not_mem_nil p)⟩
  refine ⟨hinv.1, fun hph => ?_⟩
  rw [List.all_eq_true]
  intro p hp
  rcases hinv.2.2.2 p hp with h' | h'
  · exact absurd h' (List.not_mem_nil p)
  · rw [if_pos hph] at h'
    rw [bne_iff_ne]
    intro hc
    exact h' (by rw [hc]; exact List.mem_singleton_self _)

theorem C2_witness :
    get_value (headerMap ["name", "phone", "phone_2"]) ["B", "555", "666"] "phone" "" ≠ "" ∧
    ((buildContractor 2025 (headerMap ["name", "phone", "phone_2"])
        ["B", "555", "666"] 1 0).contact_info.phone.additional_phones.all
      (fun p => digitsOnly p.number !=
        digitsOnly (get_value (headerMap ["name", "phone", "phone_2"]) ["B", "555", "666"] "phone" ""))) = true :=
  ⟨by decide,
   (C2_phone_dedup 2025 (headerMap ["name", "phone", "phone_2"]) ["B", "555", "666"] 1 0).1.2
     (by decide)⟩

lemma exceptOk_map {ε α β : Type} (f : α → β) (e : Except ε α) :
    exceptOk (e.map f) = exceptOk e := by
  cases e <;> rfl

lemma processRow_ok_of_safe (current_year : Int) (hm : String → Option Nat)
    (all_rows : List (List String)) (r : Int) (stamp : Nat)
    (h : rowSafe hm all_rows r = true) :
    exceptOk (processRow current_year hm all_rows r stamp) = true := by
  unfold rowSafe at h
  simp only [Bool.or_eq_true, decide_eq_true_eq, beq_iff_eq] at h
  unfold processRow
  split_ifs with h1 h2 h3 h4
  · rfl
  · rfl
  · rfl
  · rfl
  · exfalso
    rcases h with ((h | h) | h) | h
    · exact h1 (Or.inl h)
    · exact h1 (Or.inr h)
    · exact h2 h
    · exact h3 h

/-- C3 counterexample: with header `["x", "name"]` the name column has
index 1, and the selected one-cell row `["a"]` is non-empty, so line 83
raises `IndexError`; the run aborts with no output instead of skipping the
row. -/
theorem C3_counterexample :
    processRow 2025 (headerMap ["x", "name"]) [["a"]] 1 0 = .error () ∧
    convert_to_json ["x", "name"] [["a"]] [1] 2025 (fun _ => 0) "t" = none :=
  ⟨rfl, rfl⟩

/-- C3 (amended): an out-of-range requested row number, and an in-range
selected row that is empty or whose in-bounds name cell is empty, are
skipped with only a warning; and a whole run of requested rows survives
(no abort) provided every selected non-empty row reaches its name column —
a non-empty row shorter than the name column index raises an unhandled
`IndexError` that aborts the run. -/
theorem C3_row_failures (current_year : Int) (hm : String → Option Nat)
    (all_rows : List (List String)) (clock : Nat → Nat) :
    (∀ (r : Int) (stamp : Nat), (r - 1 < 0 ∨ (all_rows.length : Int) ≤ r - 1) →
      processRow current_year hm all_rows r stamp = .ok none) ∧
    (∀ (r : Int) (stamp : Nat), ¬(r - 1 < 0 ∨ (all_rows.length : Int) ≤ r - 1) →
      (all_rows.getD (r - 1).toNat [] = [] ∨
        ((hm "name").getD 0 < (all_rows.getD (r - 1).toNat []).length ∧
          (all_rows.getD (r - 1).toNat []).getD ((hm "name").getD 0) "" = "")) →
      processRow current_year hm all_rows r stamp = .ok none) ∧
    (∀ (rows : List Int) (k : Nat), (∀ r ∈ rows, rowSafe hm all_rows r = true) →
      exceptOk (processRows current_year hm all_rows clock rows k) = true) := by
  refine ⟨?_, ?_, ?_⟩
  · intro r stamp h
    unfold processRow
    rw [if_pos h]
  · intro r stamp h hskip
    unfold processRow
    rw [if_neg h]
    rcases hskip with hrow | ⟨hlt, hcell⟩
    · rw [if_pos hrow]
    · rw [if_neg (fun hc => by rw [hc] at hlt; simp at hlt), if_pos hlt, if_pos hcell]
  · intro rows
    induction rows with
    | nil => intro k _; rfl
    | cons r rs ih =>
      intro k h
      have hr := processRow_ok_of_safe current_year hm all_rows r (clock k)
        (h r (List.mem_cons_self r rs))
      simp only [processRows]
      cases hp : processRow current_year hm all_rows r (clock k) with
      | error e => rw [hp] at hr; exact absurd hr (by simp [exceptOk])
      | ok v =>
        cases v with
        | none => exact ih (k + 1) (fun x hx => h x (List.mem_cons_of_mem r hx))
        | some c =>
          rw [exceptOk_map]
          exact ih (k + 1) (fun x hx => h x (List.mem_cons_of_mem r hx))

theorem C3_witness :
    processRow 2025 (headerMap ["name"]) [["A"], []] 5 0 = .ok none ∧
    processRow 2025 (headerMap ["name"]) [["A"], []] 2 0 = .ok none ∧
    exceptOk (processRows 2025 (headerMap ["name"]) [["A"], []] (fun _ => 0) [5, 2, 1] 0) = true :=
  ⟨(C3_row_failures 2025 (headerMap ["name"]) [["A"], []] (fun _ => 0)).1 5 0 (by decide),
   (C3_row_failures 2025 (headerMap ["name"]) [["A"], []] (fun _ => 0)).2.1 2 0
     (by decide) (by decide),
   (C3_row_failures 2025 (headerMap ["name"]) [["A"], []] (fun _ => 0)).2.2 [5, 2, 1] 0
     (by decide)⟩

lemma processRow_builds (current_year : Int) (hm : String → Option Nat)
    (all_rows : List (List String)) (r : Int) (stamp : Nat)
    (h : rowQualifies hm all_rows r = true) :
    processRow current_year hm all_rows r stamp =
      .ok (some (buildContractor current_year hm (all_rows.getD (r - 1).toNat []) r stamp)) := by
  unfold rowQualifies at h
  simp only [Bool.and_eq_true, decide_eq_true_eq, bne_iff_ne] at h
  obtain ⟨⟨h0, h1⟩, h2, h3⟩ := h
  have hrow : all_rows.getD (r - 1).toNat [] ≠ [] := by
    intro hc
    rw [hc] at h2
    simp at h2
  unfold processRow
  rw [if_neg (by omega), if_neg hrow, if_pos h2, if_neg h3]

/-- C5: a requested row number that is in range and whose selected row has a
non-empty (raw) name cell at an in-bounds name column index yields exactly
one record; a run whose requested rows all qualify produces exactly one
record per request. -/
theorem C5_record_per_qualifying_row (current_year : Int) (hm : String → Option Nat)
    (all_rows : List (List String)) (clock : Nat → Nat) :
    (∀ (r : Int) (stamp : Nat), rowQualifies hm all_rows r = true →
      processRow current_year hm all_rows r stamp =
        .ok (some (buildContractor current_year hm (all_rows.getD (r - 1).toNat []) r stamp))) ∧
    (∀ (rows : List Int) (k : Nat), (∀ r ∈ rows, rowQualifies hm all_rows r = true) →
      (processRows current_year hm all_rows clock rows k).map List.length = .ok rows.length) := by
  refine ⟨fun r stamp h => processRow_builds current_year hm all_rows r stamp h, ?_⟩
  intro rows
  induction rows with
  | nil => intro k _; rfl
  | cons r rs ih =>
    intro k h
    have hr := processRow_builds current_year hm all_rows r (clock k)
      (h r (List.mem_cons_self r rs))
    have ihr := ih (k + 1) (fun x hx => h x (List.mem_cons_of_mem r hx))
    simp only [processRows]
    rw [hr]
    cases hq : processRows current_year hm all_rows clock rs (k + 1) with
    | error e =>
      rw [hq] at ihr
      simp [Except.map] at ihr
    | ok l =>
      rw [hq] at ihr
      simp only [Except.map] at ihr ⊢
      injection ihr with h'
      simp [h', List.length_cons]

theorem C5_witness :
    processRow 2025 (headerMap ["name"]) [["A"]] 1 7 =
      .ok (some (buildContractor 2025 (headerMap ["name"]) ["A"] 1 7)) ∧
    (processRows 2025 (headerMap ["name"]) [["A"]] (fun k => k) [1, 1] 0).map List.length =
      .ok 2 :=
  ⟨(C5_record_per_qualifying_row 2025 (headerMap ["name"]) [["A"]] (fun k => k)).1 1 7 (by decide),
   (C5_record_per_qualifying_row 2025 (headerMap ["name"]) [["A"]] (fun k => k)).2 [1, 1] 0
     (by decide)⟩

lemma maskContractor_build (current_year : Int) (hm : String → Option Nat)
    (row : List String) (row_index : Int) (s₁ s₂ : Nat) :
    maskContractor (buildContractor current_year hm row row_index s₁) =
      maskContractor (buildContractor current_year hm row row_index s₂) := by
  by_cases h : get_value hm row "place_id" "" = ""
  · simp [maskContractor, buildContractor, h]
  · simp [maskContractor, buildContractor, h]

lemma processRow_mask (current_year : Int) (hm : String → Option Nat)
    (all_rows : List (List String)) (r : Int) (s₁ s₂ : Nat) :
    (processRow current_year hm all_rows r s₁).map (Option.map maskContractor) =
      (processRow current_year hm all_rows r s₂).map (Option.map maskContractor) := by
  unfold processRow
  split_ifs
  · rfl
  · rfl
  · rfl
  · exact congrArg (fun c => (Except.ok (some c) : Except Unit (Option Contractor)))
      (maskContractor_build current_year hm _ r s₁ s₂)
  · rfl

lemma processRows_mask (current_year : Int) (hm : String → Option Nat)
    (all_rows : List (List String)) (clock₁ clock₂ : Nat → Nat) :
    ∀ (rows : List Int) (k₁ k₂ : Nat),
    (processRows current_year hm all_rows clock₁ rows k₁).map (List.map maskContractor) =
      (processRows current_year hm all_rows clock₂ rows k₂).map (List.map maskContractor) := by
  intro rows
  induction rows with
  | nil => intro k₁ k₂; rfl
  | cons r rs ih =>
    intro k₁ k₂
    have hrow := processRow_mask current_year hm all_rows r (clock₁ k₁) (clock₂ k₂)
    simp only [processRows]
    cases hp₁ : processRow current_year hm all_rows r (clock₁ k₁) with
    | error e₁ =>
      cases hp₂ : processRow current_year hm all_rows r (clock₂ k₂) with
      | error e₂ => cases e₁; cases e₂; rfl
      | ok v₂ =>
        rw [hp₁, hp₂] at hrow
        simp [Except.map] at hrow
    | ok v₁ =>
      cases hp₂ : processRow current_year hm all_rows r (clock₂ k₂) with
      | error e₂ =>
        rw [hp₁, hp₂] at hrow
        simp [Except.map] at hrow
      | ok v₂ =>
        rw [hp₁, hp₂] at hrow
        simp only [Except.map] at hrow
        injection hrow with hv
        cases v₁ with
        | none =>
          cases v₂ with
          | none => exact ih (k₁ + 1) (k₂ + 1)
          | some c₂ => simp [Option.map] at hv
        | some c₁ =>
          cases v₂ with
          | none => simp [Option.map] at hv
          | some c₂ =>
            simp only [Option.map] at hv
            injection hv with hc
            have hrs := ih (k₁ + 1) (k₂ + 1)
            cases hq₁ : processRows current_year hm all_rows clock₁ rs (k₁ + 1) with
            | error e =>
              cases hq₂ : processRows current_year hm all_rows clock₂ rs (k₂ + 1) with
              | error e' => cases e; cases e'; rfl
              | ok l₂ => rw [hq₁, hq₂] at hrs; simp [Except.map] at hrs
            | ok l₁ =>
              cases hq₂ : processRows current_year hm all_rows clock₂ rs (k₂ + 1) with
              | error e' => rw [hq₁, hq₂] at hrs; simp [Except.map] at hrs
              | ok l₂ =>
                rw [hq₁, hq₂] at hrs
                simp only [Except.map] at hrs ⊢
                injection hrs with hl
                rw [List.map_cons, List.map_cons, hc, hl]

lemma maskContractor_segmentation (c : Contractor) :
    (maskContractor c).segmentation = c.segmentation := by
  unfold maskContractor
  split_ifs <;> rfl

lemma filter_length_mask (p : Contractor → Bool) (cs₁ cs₂ : List Contractor)
    (hp : ∀ c, p (maskContractor c) = p c)
    (h : cs₁.map maskContractor = cs₂.map maskContractor) :
    (cs₁.filter p).length = (cs₂.filter p).length := by
  have hpm : ∀ (cs : List Contractor), (cs.map maskContractor).countP p = cs.countP p := by
    intro cs
    rw [List.countP_map]
    congr 1
    funext c
    simp [Function.comp, hp c]
  calc (cs₁.filter p).length
      = cs₁.countP p := by rw [List.countP_eq_length_filter]
    _ = (cs₁.map maskContractor).countP p := (hpm cs₁).symm
    _ = (cs₂.map maskContractor).countP p := by rw [h]
    _ = cs₂.countP p := hpm cs₂
    _ = (cs₂.filter p).length := by rw [List.countP_eq_length_filter]

lemma mask_mkOutput (cs₁ cs₂ : List Contractor) (rows : List Int) (g₁ g₂ : String)
    (h : cs₁.map maskContractor = cs₂.map maskContractor) :
    maskOutput (mkOutput cs₁ rows g₁) = maskOutput (mkOutput cs₂ rows g₂) := by
  have hlen : cs₁.length = cs₂.length := by
    have := congrArg List.length h
    simpa using this
  have hseg : ∀ (p : Segmentation → Bool),
      (cs₁.filter (fun c => p c.segmentation)).length =
        (cs₂.filter (fun c => p c.segmentation)).length := by
    intro p
    exact filter_length_mask (fun c => p c.segmentation) cs₁ cs₂
      (fun c => by
        show p (maskContractor c).segmentation = p c.segmentation
        rw [maskContractor_segmentation]) h
  simp only [maskOutput, mkOutput, mkSegments, Output.mk.injEq, Meta.mk.injEq,
    Segments.mk.injEq]
  exact ⟨h, hlen, trivial, ⟨hseg _, hseg _, hseg _, hseg _, hseg _, hseg _⟩, trivial⟩

/-- C9 counterexample: the same table and row selection run at two times
that fall in different calendar years differ in `years_in_business` (and
`established_business`-relevant data), a field the claim requires to be
equal, even after masking the fallback ids and `generated_at`. -/
theorem C9_counterexample :
    (convert_to_json ["name", "site.company_insights.founded_year"] [["A", "2000"]]
        [1] 2024 (fun _ => 0) "t").map maskOutput ≠
      (convert_to_json ["name", "site.company_insights.founded_year"] [["A", "2000"]]
        [1] 2025 (fun _ => 0) "t").map maskOutput := by
  decide

/-- C9 (amended): two runs on the same input table and row selection that
observe the same current calendar year produce identical outputs up to the
timestamp-based fallback ids (present exactly when a record has no external
place id) and `meta.generated_at`, whatever per-step timestamps each run
draws. -/
theorem C9_idempotence_modulo_time (headers : List String) (all_rows : List (List String))
    (specific_rows : List Int) (current_year : Int) (clock₁ clock₂ : Nat → Nat)
    (g₁ g₂ : String) :
    (convert_to_json headers all_rows specific_rows current_year clock₁ g₁).map maskOutput =
      (convert_to_json headers all_rows specific_rows current_year clock₂ g₂).map maskOutput := by
  have h := processRows_mask current_year (headerMap headers) all_rows clock₁ clock₂
    specific_rows 0 0
  unfold convert_to_json
  cases h₁ : processRows current_year (headerMap headers) all_rows clock₁ specific_rows 0 with
  | error e₁ =>
    cases h₂ : processRows current_year (headerMap headers) all_rows clock₂ specific_rows 0 with
    | error e₂ => rfl
    | ok l₂ => rw [h₁, h₂] at h; simp [Except.map] at h
  | ok l₁ =>
    cases h₂ : processRows current_year (headerMap headers) all_rows clock₂ specific_rows 0 with
    | error e₂ => rw [h₁, h₂] at h; simp [Except.map] at h
    | ok l₂ =>
      rw [h₁, h₂] at h
      simp only [Except.map] at h
      injection h with hl
      show some (maskOutput (mkOutput l₁ specific_rows g₁)) =
        some (maskOutput (mkOutput l₂ specific_rows g₂))
      rw [mask_mkOutput l₁ l₂ specific_rows g₁ g₂ hl]
